import Mathlib

/-!
Shallow embedding of the GantryMQ RPC broker / admission-control core.

Server side (`src/gmqserver/server.py`, class `RpcServer`):
  * `ServerState` embeds the mutable admission state `self.clients`
    (a Python set of reply addresses) and `self.queued_clients`
    (a Python list used as a FIFO wait queue).
  * `callback` embeds `RpcServer.callback`, the control-message handler
    for the raw bodies `"Connect"` and `"Release"`.
  * `next_in_queue` embeds `RpcServer.next_in_queue`.
  * `on_request_command` embeds `RpcServer.on_request_command` and
    `on_request_data` embeds `RpcServer.on_request_data`; both are given
    the handler table as an explicit argument, mirroring the Python
    keyword argument (`rpc_commands` resp. `data_methods`).  Each returns,
    besides the messages it publishes, the list of registry commands whose
    handler it invoked, so that "no handler is invoked" is observable.

Client side (`src/gmqclient/client.py`, class `RpcClient`):
  * `ClientState` embeds `self.response` and `self.corr_id`.
  * `on_response` embeds `RpcClient.on_response`.
  * `call` embeds `RpcClient.call`: a fresh correlation identifier is
    installed, the result slot cleared, the request published, and one
    single `self.connection.process_data_events(time_limit=None)` call is
    made (the `while self.response is None` retry loop is commented out in
    the source); `process_data_events` models that one call of the
    external transport (pika) as the in-order dispatch of the batch of
    messages it delivers to `on_response`.  The method then executes
    `self.handle_response(self.response)` — an attribute no class in the
    repository defines, so the invocation raises `AttributeError` before
    the `return self.response` line; `call` therefore yields a
    `CallOutcome`, normal return or uncaught exception.

Python values crossing the dispatcher are modelled by `PyValue`; the
`json.dumps` serialisation is `json_dumps`, partial exactly where Python's
raises `TypeError` (function objects).  String escaping is elided: no
string in the modelled vocabulary contains characters needing escapes.
-/

namespace GantryMQ

/-- A client identity: the transport-level reply address (an opaque string). -/
abbrev ClientId := String

/-- A message published to the transport by the server:
`ch.basic_publish(exchange=..., routing_key=..., properties=..., body=...)`.
`correlation_id` is `none` when the publish attaches no properties. -/
structure Published where
  exchange : String
  routing_key : ClientId
  correlation_id : Option String
  body : String
deriving Repr, DecidableEq

/-- The admission state of `RpcServer`: `self.clients` (a set) and
`self.queued_clients` (a FIFO list). -/
structure ServerState where
  clients : Finset ClientId
  queued_clients : List ClientId
deriving DecidableEq

/-- The initial admission state set up in `RpcServer.__init__`:
`self.clients = set()`, `self.queued_clients = []`. -/
def initState : ServerState := ⟨∅, []⟩

/-- Embeds `RpcServer.next_in_queue`: if the wait queue is non-empty, pop its
head (`self.queued_clients.pop(0)`); when the popped identity is truthy (a
non-empty string), publish the raw body `"Connected"` to it with no
properties attached (hence no correlation identifier). -/
def next_in_queue (st : ServerState) : ServerState × List Published :=
  match st.queued_clients with
  | [] => (st, [])
  | first_client :: rest =>
    if first_client ≠ "" then
      ({ st with queued_clients := rest },
       [⟨"", first_client, Option.none, "Connected"⟩])
    else
      ({ st with queued_clients := rest }, [])

/-- Embeds `RpcServer.callback`, the control-channel handler.  Arguments are
the message's `properties.reply_to`, `properties.correlation_id` and raw
`body`.  Returns the updated state and the messages published. -/
def callback (st : ServerState) (reply_to : ClientId) (corr : Option String)
    (body : String) : ServerState × List Published :=
  if body = "Connect" then
    if st.clients = ∅ then
      ({ st with clients := insert reply_to st.clients },
       [⟨"", reply_to, corr, "Connected"⟩])
    else if reply_to ∈ st.clients then
      (st, [⟨"", reply_to, corr, "Already Connected"⟩])
    else
      ({ st with queued_clients := st.queued_clients ++ [reply_to] }, [])
  else if body = "Release" then
    if reply_to ∈ st.clients then
      next_in_queue { st with clients := st.clients.erase reply_to }
    else
      (st, [])
  else
    (st, [])

/-- Runs a list of control messages `(reply_to, correlation_id, body)` through
`callback`, returning the final state (the state "at that instant"). -/
def runCtrl : ServerState → List (ClientId × Option String × String) → ServerState
  | st, [] => st
  | st, (c, k, b) :: rest => runCtrl (callback st c k b).1 rest

/-- Runs a list of control messages through `callback`, returning the final
state together with every message published along the way, in order. -/
def runCtrlPubs : ServerState → List (ClientId × Option String × String) →
    ServerState × List Published
  | st, [] => (st, [])
  | st, (c, k, b) :: rest =>
    let step := callback st c k b
    let restRun := runCtrlPubs step.1 rest
    (restRun.1, step.2 ++ restRun.2)

/-- A Python value as it flows through the dispatcher: handler results and
request arguments.  `func` is an invocable reference (what Python's
`callable` recognises), tagged by a name for identification. -/
inductive PyValue where
  | str : String → PyValue
  | int : Int → PyValue
  | pair : PyValue → PyValue → PyValue
  | null : PyValue
  | func : String → PyValue
deriving Repr, DecidableEq

/-- Python's `callable(v)` on the modelled values: true exactly on function
objects. -/
def PyValue.isCallable : PyValue → Bool
  | .func _ => true
  | _ => false

/-- Python's `json.dumps`, partial exactly where Python raises `TypeError`
(function objects are not JSON serialisable).  Escaping inside strings is
elided: the modelled vocabulary has no characters needing escapes. -/
def json_dumps : PyValue → Option String
  | .str s => some ("\"" ++ s ++ "\"")
  | .int n => some (toString n)
  | .null => some "null"
  | .func _ => Option.none
  | .pair a b => do
      let sa ← json_dumps a
      let sb ← json_dumps b
      pure ("[" ++ sa ++ ", " ++ sb ++ "]")

/-- A parsed request payload, `json.loads(body)` of
`{"command": ..., "args": ...}`. -/
structure Request where
  command : String
  args : PyValue
deriving Repr, DecidableEq

/-- A command registry: the ordered (name, handler) pairs of a Python dict
such as `self.rpc_commands` or the `data_methods` keyword argument. -/
abbrev Registry := List (String × (PyValue → PyValue))

/-- Dict lookup `reg[c]` guarded by `c in reg.keys()`. -/
def regLookup (reg : Registry) (c : String) : Option (PyValue → PyValue) :=
  match reg with
  | [] => Option.none
  | (k, h) :: rest => if k = c then some h else regLookup rest c

/-- The outcome of a dispatcher invocation: `ok` carries the messages it
published and the names of the registry commands whose handler it invoked
(observability for "no handler is invoked"); `error` models an uncaught
Python exception (`json.dumps` raising `TypeError`). -/
inductive DispatchResult where
  | ok : List Published → List String → DispatchResult
  | error : String → DispatchResult
deriving Repr, DecidableEq

/-- Embeds `RpcServer.on_request_command`.  If the sender's reply address is
in `self.clients`, look the command up in `rpc_commands`: if present, invoke
the handler on the args and let
`response = response if callable(response) else "Command executed"`
(note the source keeps a callable result and substitutes the literal for a
non-callable one); if absent, `response = "Unknown command"`; publish
`json.dumps(response)` to the reply address under the request's correlation
identifier.  Otherwise publish the raw body `"Unauthorized Client"` (no
`json.dumps` on this path) and invoke nothing. -/
def on_request_command (clients : Finset ClientId) (rpc_commands : Registry)
    (reply_to : ClientId) (corr : Option String) (req : Request) :
    DispatchResult :=
  if reply_to ∈ clients then
    match regLookup rpc_commands req.command with
    | some handler =>
      let r := handler req.args
      let response := if r.isCallable then r else .str "Command executed"
      match json_dumps response with
      | some body => .ok [⟨"", reply_to, corr, body⟩] [req.command]
      | Option.none => .error "TypeError"
    | Option.none =>
      match json_dumps (.str "Unknown command") with
      | some body => .ok [⟨"", reply_to, corr, body⟩] []
      | Option.none => .error "TypeError"
  else
    .ok [⟨"", reply_to, corr, "Unauthorized Client"⟩] []

/-- Embeds `RpcServer.on_request_data`.  The body is parsed and dispatched
through `data_methods` exactly as on the commands path, but no membership
test against `self.clients` guards it: the function does not consult the
admission state at all. -/
def on_request_data (data_methods : Registry) (reply_to : ClientId)
    (corr : Option String) (req : Request) : DispatchResult :=
  match regLookup data_methods req.command with
  | some handler =>
    let r := handler req.args
    let response := if r.isCallable then r else .str "Command executed"
    match json_dumps response with
    | some body => .ok [⟨"", reply_to, corr, body⟩] [req.command]
    | Option.none => .error "TypeError"
  | Option.none =>
    match json_dumps (.str "Unknown command") with
    | some body => .ok [⟨"", reply_to, corr, body⟩] []
    | Option.none => .error "TypeError"

/-- Embeds `RpcServer.fib`: the registered `get-fib` handler on non-negative
arguments (a negative argument does not terminate in the source). -/
def fib : Nat → Nat
  | 0 => 0
  | 1 => 1
  | n + 2 => fib (n + 1) + fib n

/-- Embeds `RpcServer.add` on its defined inputs: `a, b = args` unpacks a
two-element sequence of ints and returns `a + b` (any other shape raises in
Python and is outside the modelled domain). -/
def add : PyValue → PyValue
  | .pair (.int a) (.int b) => .int (a + b)
  | _ => .null

/-- The client-side mutable state of `RpcClient`: `self.response` and
`self.corr_id` (both initialised to `None`). -/
structure ClientState where
  response : Option String
  corr_id : Option String
deriving Repr, DecidableEq

/-- The state of a freshly constructed `RpcClient`:
`self.response = None`, `self.corr_id = None`. -/
def initClient : ClientState := ⟨Option.none, Option.none⟩

/-- A message delivered to the client's private callback queue:
`props.correlation_id` (absent when the publisher attached no properties)
and the body. -/
structure Delivery where
  correlation_id : Option String
  body : String
deriving Repr, DecidableEq

/-- Embeds `RpcClient.on_response`: store the body in `self.response` iff
`self.corr_id == props.correlation_id` (Python's `==`, under which
`None == None` holds). -/
def on_response (st : ClientState) (d : Delivery) : ClientState :=
  if st.corr_id = d.correlation_id then { st with response := some d.body } else st

/-- Models one invocation of the transport's
`self.connection.process_data_events(time_limit=None)` (pika, an external
collaborator): the messages the transport delivers during that one call are
dispatched in order to `on_response`.  The source makes exactly one such
call per request — the `while self.response is None` retry loop at
client.py lines 71-73 is commented out — so no further pumping follows the
batch. -/
def process_data_events (st : ClientState) (ds : List Delivery) : ClientState :=
  ds.foldl on_response st

/-- The method names defined on `RpcClient` (client.py).  The subclasses in
the package (`GpioClient`, `DRSClient`, and the classes in GCoderClient.py)
add only hardware stub methods; in particular `handle_response` is defined
nowhere in the repository. -/
def rpcClientMethods : List String :=
  ["__init__", "handle_connection_response", "on_response", "send_request",
   "call", "release_connection", "signal_handler"]

/-- Python attribute lookup `self.<name>` against the methods the client
classes define: `False` means the access raises `AttributeError`. -/
def hasattr_rpc_client (name : String) : Bool := rpcClientMethods.contains name

/-- The observable outcome of a client method invocation: a normal return
value, or an uncaught Python exception. -/
inductive CallOutcome where
  | returns : Option String → CallOutcome
  | raises : String → CallOutcome
deriving Repr, DecidableEq

/-- Embeds `RpcClient.call`: clear `self.response`, install the fresh
correlation identifier from `uuid.uuid4()` (the `fresh` argument), publish
the request, make the single blocking `process_data_events` call over the
batch `ds` the transport delivers, then execute
`self.handle_response(self.response)`: the attribute lookup for
`handle_response` finds no such method on any client class, so the
invocation raises `AttributeError`, and the `return self.response` on the
following line is reached only if the lookup had succeeded. -/
def call (fresh : String) (ds : List Delivery) (st : ClientState) : CallOutcome :=
  let st1 := { st with response := Option.none, corr_id := some fresh }
  let st2 := process_data_events st1 ds
  if hasattr_rpc_client "handle_response" then .returns st2.response
  else .raises "AttributeError"

/-- Control trace for the FIFO-fairness scenario: A, B, C connect in order,
then A releases, then B releases. -/
def c5trace : List (ClientId × Option String × String) :=
  [("A", some "ka", "Connect"), ("B", some "kb", "Connect"), ("C", some "kc", "Connect"),
   ("A", some "ka2", "Release"), ("B", some "kb2", "Release")]

/-- Control trace exercising duplicate queue entries: A connects, B sends
`Connect` twice while A is active, A releases (first grant to B), D connects
into the now-empty session, D releases (second grant to B). -/
def c9trace : List (ClientId × Option String × String) :=
  [("A", some "k1", "Connect"), ("B", some "k2", "Connect"), ("B", some "k3", "Connect"),
   ("A", some "k4", "Release"), ("D", some "k5", "Connect"), ("D", some "k6", "Release")]

/-- The wait-queue promotion never touches `self.clients`. -/
theorem next_in_queue_clients (st : ServerState) : (next_in_queue st).1.clients = st.clients := by
  unfold next_in_queue
  cases st.queued_clients with
  | nil => rfl
  | cons a rest => by_cases h : a = "" <;> simp [h]

/-- One control message preserves `|self.clients| ≤ 1`: `Connect` inserts
only into an empty set, `Release` only erases, and promotion does not touch
the set. -/
theorem callback_card_le_one (st : ServerState) (c : ClientId) (k : Option String) (b : String)
    (h : st.clients.card ≤ 1) : ((callback st c k b).1).clients.card ≤ 1 := by
  unfold callback
  split_ifs with h1 h2 h3 h4 h5
  · simp [h2]
  · exact h
  · exact h
  · rw [next_in_queue_clients]
    exact le_trans (Finset.card_erase_le) h
  · exact h
  · exact h

/-- The `|self.clients| ≤ 1` invariant is preserved along any control trace. -/
theorem runCtrl_card_le_one (msgs : List (ClientId × Option String × String)) :
    ∀ st : ServerState, st.clients.card ≤ 1 → (runCtrl st msgs).clients.card ≤ 1 := by
  induction msgs with
  | nil => intro st h; exact h
  | cons m rest ih =>
    intro st h
    exact ih _ (callback_card_le_one st m.1 m.2.1 m.2.2 h)

/-- The response callback never changes `self.corr_id`. -/
theorem on_response_corr_id (st : ClientState) (d : Delivery) :
    (on_response st d).corr_id = st.corr_id := by
  unfold on_response
  split <;> rfl

/-- After one `process_data_events` batch, a filled result slot either was
filled before the batch or holds the body of a delivery bearing the pending
correlation identifier. -/
theorem process_data_events_some (fresh : String) (ds : List Delivery) :
    ∀ (st : ClientState), st.corr_id = some fresh →
    ∀ b, (process_data_events st ds).response = some b →
    st.response = some b ∨ ∃ d ∈ ds, d.correlation_id = some fresh ∧ d.body = b := by
  induction ds with
  | nil => intro st _ b hb; exact Or.inl hb
  | cons d rest ih =>
    intro st h b hb
    have hstep : process_data_events st (d :: rest)
        = process_data_events (on_response st d) rest := rfl
    rw [hstep] at hb
    have hc : (on_response st d).corr_id = some fresh := by
      rw [on_response_corr_id, h]
    rcases ih (on_response st d) hc b hb with h1 | h2
    · by_cases hm : st.corr_id = d.correlation_id
      · unfold on_response at h1
        simp [hm] at h1
        refine Or.inr ⟨d, by simp, ?_, by rw [h1]⟩
        rw [← hm]
        exact h
      · unfold on_response at h1
        simp [hm] at h1
        exact Or.inl h1
    · obtain ⟨d', hd', hc', hb'⟩ := h2
      exact Or.inr ⟨d', by simp [hd'], hc', hb'⟩

/-- A batch none of whose deliveries bears the pending correlation
identifier leaves the client state untouched. -/
theorem process_data_events_no_match (fresh : String) (ds : List Delivery) :
    ∀ (st : ClientState), st.corr_id = some fresh →
    (∀ d ∈ ds, d.correlation_id ≠ some fresh) →
    process_data_events st ds = st := by
  induction ds with
  | nil => intro st _ _; rfl
  | cons d rest ih =>
    intro st h hall
    have hne : st.corr_id ≠ d.correlation_id := by
      rw [h]; exact fun he => hall d (by simp) he.symm
    have hstep : process_data_events st (d :: rest)
        = process_data_events (on_response st d) rest := rfl
    have hor : on_response st d = st := by
      unfold on_response; simp [hne]
    rw [hstep, hor]
    exact ih st h (fun d' hd' => hall d' (by simp [hd']))

/-- Every message the promotion publishes has body `"Connected"`. -/
theorem next_in_queue_pub_body (st : ServerState) (p : Published)
    (hp : p ∈ (next_in_queue st).2) : p.body = "Connected" := by
  unfold next_in_queue at hp
  cases hq : st.queued_clients with
  | nil => rw [hq] at hp; simp at hp
  | cons a rest =>
    rw [hq] at hp
    by_cases h : a = ""
    · simp [h] at hp
    · simp [h] at hp
      rw [hp]

/-- The control handler never publishes a message with body `"Released"`:
its vocabulary is `"Connected"` and `"Already Connected"` only. -/
theorem callback_body_ne_released (st : ServerState) (c : ClientId) (k : Option String)
    (b : String) (p : Published) (hp : p ∈ (callback st c k b).2) : p.body ≠ "Released" := by
  unfold callback at hp
  split_ifs at hp with h1 h2 h3 h4 h5
  · simp at hp
    rw [hp]
    show ("Connected" : String) ≠ "Released"
    decide
  · simp at hp
    rw [hp]
    show ("Already Connected" : String) ≠ "Released"
    decide
  · simp at hp
  · rw [next_in_queue_pub_body _ p hp]; decide
  · simp at hp
  · simp at hp

/-- Claim C1, counterexample: the claim asserts the authorization gate holds
"equally on the data path (on_request_data)", but `on_request_data` consults
no admission state: a request from `"B"`, which is not the active session
(`self.clients = {"A"}`), has its registry handler invoked (invoked-command
list `["get-read"]`) and is answered `"Command executed"`, not
`"Unauthorized Client"`. -/
theorem C1_counterexample_data_path :
    ("B" : ClientId) ∉ ({"A"} : Finset ClientId)
    ∧ on_request_data [("get-read", fun _ => PyValue.int 0)] "B" (some "k")
        ⟨"get-read", .null⟩
      = .ok [⟨"", "B", some "k", "\"Command executed\""⟩] ["get-read"] :=
  ⟨by decide, by decide⟩

/-- Claim C1, amended: on the commands path (`on_request_command`), a request
whose reply address is not in the ActiveSession set is answered with the raw
body `"Unauthorized Client"` and no registry handler is invoked;
`on_request_data` performs no such check. -/
theorem C1_command_gate (clients : Finset ClientId) (reg : Registry)
    (reply_to : ClientId) (corr : Option String) (req : Request)
    (h : reply_to ∉ clients) :
    on_request_command clients reg reply_to corr req
      = .ok [⟨"", reply_to, corr, "Unauthorized Client"⟩] [] := by
  unfold on_request_command
  simp [h]

/-- Witness for `C1_command_gate` at a concrete unauthorized sender. -/
theorem C1_command_gate_witness :
    on_request_command {"A"} [("add", add)] "B" (some "j") ⟨"add", .null⟩
      = .ok [⟨"", "B", some "j", "Unauthorized Client"⟩] [] :=
  C1_command_gate {"A"} [("add", add)] "B" (some "j") ⟨"add", .null⟩ (by decide)

/-- Claim C2: with `self.clients = {"A"}` and wait queue `["B"]`, a `Release`
from `"A"` publishes the unsolicited `"Connected"` to `"B"` — but leaves
`self.clients` empty: `"B"` is never installed as the ActiveSession, so its
subsequent command request is answered `"Unauthorized Client"`, contradicting
the claim that the promoted identity is authorized afterwards. -/
theorem C2_release_grants_without_install :
    callback ⟨{"A"}, ["B"]⟩ "A" (some "k") "Release"
      = (⟨∅, []⟩, [⟨"", "B", Option.none, "Connected"⟩])
    ∧ ("B" : ClientId) ∉ (callback ⟨{"A"}, ["B"]⟩ "A" (some "k") "Release").1.clients
    ∧ on_request_command (callback ⟨{"A"}, ["B"]⟩ "A" (some "k") "Release").1.clients
        [("add", add)] "B" (some "j") ⟨"add", .pair (.int 2) (.int 3)⟩
      = .ok [⟨"", "B", some "j", "Unauthorized Client"⟩] [] :=
  ⟨by decide, by decide, by decide⟩

/-- Claim C3: the normalization in the dispatcher is inverted with respect to
the claim.  The registered `add` handler returns the non-callable `5` for
args `(2, 3)`, yet the published response is `"Command executed"` rather than
the value; and a handler returning a callable has that callable kept, whose
`json.dumps` then raises `TypeError` (modelled as the `error` outcome)
instead of being substituted by `"Command executed"`. -/
theorem C3_normalization_inverted :
    on_request_command {"A"} [("add", add)] "A" (some "k")
        ⟨"add", .pair (.int 2) (.int 3)⟩
      = .ok [⟨"", "A", some "k", "\"Command executed\""⟩] ["add"]
    ∧ add (.pair (.int 2) (.int 3)) = .int 5
    ∧ (PyValue.int 5).isCallable = false
    ∧ on_request_command {"A"} [("mistake", fun _ => PyValue.func "h")] "A" (some "k")
        ⟨"mistake", .null⟩
      = .error "TypeError" :=
  ⟨by decide, by decide, by decide, by decide⟩

/-- Claim C4: along every control trace from the empty initial state,
`self.clients` holds at most one identity at every instant. -/
theorem C4_mutual_exclusion (msgs : List (ClientId × Option String × String)) :
    (runCtrl initState msgs).clients.card ≤ 1 :=
  runCtrl_card_le_one msgs initState (by simp [initState])

/-- Claim C5: on the trace where A, B, C connect in order and then A and B
each send `Release`, the only grants published are to A (on its connect) and
to B (on A's release); B's own `Release` is ignored because B was never
installed in `self.clients`, so no `"Connected"` is ever published to C —
contradicting "after B releases, C is". -/
theorem C5_second_release_never_promotes :
    runCtrlPubs initState c5trace
      = (⟨∅, ["C"]⟩,
         [⟨"", "A", some "ka", "Connected"⟩, ⟨"", "B", Option.none, "Connected"⟩])
    ∧ ∀ p ∈ (runCtrlPubs initState c5trace).2, p.routing_key ≠ "C" :=
  ⟨by decide, by decide⟩

/-- Claim C6: a `Release` from the sole active client publishes nothing at
all back to it, and more generally no message the control handler ever
publishes has body `"Released"` — the server's control vocabulary is only
`"Connected"` and `"Already Connected"`. -/
theorem C6_release_publishes_nothing :
    callback ⟨{"A"}, []⟩ "A" (some "k") "Release" = (⟨∅, []⟩, [])
    ∧ ∀ (st : ServerState) (c : ClientId) (k : Option String) (b : String),
        ∀ p ∈ (callback st c k b).2, p.body ≠ "Released" :=
  ⟨by decide, fun st c k b p hp => callback_body_ne_released st c k b p hp⟩

/-- Claim C7: every invocation of `call` raises `AttributeError` instead of
returning a response — client.py line 101 invokes
`self.handle_response(self.response)` and no class in the repository defines
`handle_response`, so `return self.response` on the next line is never
reached, falsifying "call then returns that response" on every input.  Up
to that point the correlation filter is as claimed: after the single
`process_data_events` batch, a filled result slot holds only the body of a
delivery bearing the fresh identifier, and a batch carrying only other
identifiers leaves the slot empty. -/
theorem C7_call_raises_attribute_error (fresh : String) (ds : List Delivery)
    (st : ClientState) :
    call fresh ds st = .raises "AttributeError"
    ∧ (∀ b,
        (process_data_events { st with response := Option.none, corr_id := some fresh } ds).response
          = some b →
        ∃ d ∈ ds, d.correlation_id = some fresh ∧ d.body = b)
    ∧ ((∀ d ∈ ds, d.correlation_id ≠ some fresh) →
        (process_data_events { st with response := Option.none, corr_id := some fresh } ds).response
          = Option.none) := by
  refine ⟨?_, ?_, ?_⟩
  · unfold call
    rfl
  · intro b hb
    rcases process_data_events_some fresh ds _ rfl b hb with h1 | h2
    · exact absurd h1 (by simp)
    · exact h2
  · intro hall
    rw [process_data_events_no_match fresh ds _ rfl hall]

/-- Claim C8: a `Connect` from the identity that is the sole member of
`self.clients` is answered `"Already Connected"` and the state — both the
ActiveSession set and the wait queue — is returned unchanged. -/
theorem C8_already_connected_frame (st : ServerState) (c : ClientId)
    (corr : Option String) (h : st.clients = {c}) :
    callback st c corr "Connect" = (st, [⟨"", c, corr, "Already Connected"⟩]) := by
  unfold callback
  simp [h]

/-- Witness for `C8_already_connected_frame` with a non-trivial wait queue. -/
theorem C8_already_connected_frame_witness :
    callback ⟨{"A"}, ["B", "C"]⟩ "A" (some "k") "Connect"
      = (⟨{"A"}, ["B", "C"]⟩, [⟨"", "A", some "k", "Already Connected"⟩]) :=
  C8_already_connected_frame ⟨{"A"}, ["B", "C"]⟩ "A" (some "k") (by decide)

/-- Claim C9: a `Connect` from an identity that is neither active nor able to
claim the empty session is appended to the queue tail unconditionally — in
particular also when it is already queued — and on the concrete trace where B
queues twice, B is granted `"Connected"` exactly once per queued entry across
the two releases (queue `["B", "B"]` after the duplicate connect; grants to
B appear twice among the published messages). -/
theorem C9_duplicate_queueing :
    (∀ (st : ServerState) (c : ClientId) (corr : Option String),
      st.clients ≠ ∅ → c ∉ st.clients →
      callback st c corr "Connect"
        = ({ st with queued_clients := st.queued_clients ++ [c] }, []))
    ∧ (runCtrl initState (c9trace.take 3)).queued_clients = ["B", "B"]
    ∧ (runCtrlPubs initState c9trace).2
      = [⟨"", "A", some "k1", "Connected"⟩, ⟨"", "B", Option.none, "Connected"⟩,
         ⟨"", "D", some "k5", "Connected"⟩, ⟨"", "B", Option.none, "Connected"⟩] := by
  refine ⟨?_, by decide, by decide⟩
  intro st c corr h1 h2
  unfold callback
  simp [h1, h2]

/-- Witness for `C9_duplicate_queueing`: the duplicate append at a state
where `"B"` is already queued. -/
theorem C9_duplicate_queueing_witness :
    callback ⟨{"A"}, ["B"]⟩ "B" (some "k3") "Connect" = (⟨{"A"}, ["B", "B"]⟩, []) :=
  C9_duplicate_queueing.1 ⟨{"A"}, ["B"]⟩ "B" (some "k3") (by decide) (by decide)

/-- Claim C10, counterexample: the claim quantifies over every client state,
but in the freshly constructed client (`self.corr_id = None`) the promotion
grant — published with no properties, hence `correlation_id = None` — makes
`None == None` hold in `on_response`, so the result slot is overwritten with
`"Connected"`: the state does not remain unchanged. -/
theorem C10_counterexample_idle_overwrite :
    (next_in_queue ⟨∅, ["B"]⟩).2 = [⟨"", "B", Option.none, "Connected"⟩]
    ∧ initClient.corr_id = Option.none
    ∧ on_response initClient ⟨Option.none, "Connected"⟩
      = ⟨some "Connected", Option.none⟩
    ∧ on_response initClient ⟨Option.none, "Connected"⟩ ≠ initClient :=
  ⟨by decide, rfl, by decide, by decide⟩

/-- Claim C10, amended: every message published by `next_in_queue` carries
body `"Connected"` and no correlation identifier, and whenever the client has
a pending call — `self.corr_id` holds some fresh identifier, never `None` —
processing such a grant leaves the client state (in particular the result
slot) unchanged; only the idle state with `corr_id = None` stores it. -/
theorem C10_pending_call_unaffected (sst : ServerState) (cst : ClientState)
    (s : String) (h : cst.corr_id = some s) :
    ∀ p ∈ (next_in_queue sst).2,
      p.correlation_id = Option.none ∧ p.body = "Connected" ∧
      on_response cst ⟨p.correlation_id, p.body⟩ = cst := by
  intro p hp
  unfold next_in_queue at hp
  cases hq : sst.queued_clients with
  | nil => rw [hq] at hp; simp at hp
  | cons a rest =>
    rw [hq] at hp
    by_cases ha : a = ""
    · simp [ha] at hp
    · simp [ha] at hp
      rw [hp]
      refine ⟨rfl, rfl, ?_⟩
      unfold on_response
      simp [h]

/-- Witness for `C10_pending_call_unaffected`: a client with a pending call
ignores a concrete promotion grant. -/
theorem C10_pending_call_unaffected_witness :
    on_response ⟨Option.none, some "u1"⟩ ⟨Option.none, "Connected"⟩
      = ⟨Option.none, some "u1"⟩ :=
  (C10_pending_call_unaffected ⟨∅, ["B"]⟩ ⟨Option.none, some "u1"⟩ "u1" rfl
    ⟨"", "B", Option.none, "Connected"⟩ (by decide)).2.2

end GantryMQ
